import Mathlib

/-!
Shallow embedding of the escrow trade protocol from
src/solana/escrow/program/src/processor.rs (Processor::process_init_escrow and
Processor::process_exchange), together with the ledger-entry serialization.
Identities (32-byte public keys) are modelled as natural numbers below 2^256,
u64 quantities as natural numbers below 2^64, and account data as lists of
bytes (naturals below 256). Cross-program invocations into the external token
interface are recorded as emitted instructions rather than executed, matching
the spec boundary that the token program is an external collaborator.
-/

/-- Error outcomes of the two processor entry points: the subset of the host
runtime's program errors used by processor.rs, plus the program's own escrow
errors (ExpectedAmountMismatch, NotRentExempt, AmountOverflow). -/
inductive ProgErr where
  | invalidInstruction
  | missingRequiredSignature
  | incorrectProgramId
  | notRentExempt
  | accountAlreadyInitialized
  | invalidAccountData
  | uninitializedAccount
  | expectedAmountMismatch
  | amountOverflow
deriving DecidableEq, Repr

/-- The view of a runtime account that processor.rs reads: its public key,
whether it signed the transaction, its owner program, its lamport balance and
its raw account data. -/
structure AccountInfo where
  key : Nat
  is_signer : Bool
  owner : Nat
  lamports : Nat
  data : List Nat
deriving DecidableEq, Repr

/-- Cross-program invocations that processor.rs issues to the external token
interface. `transfer` is authorized by a real signer; `transferSigned` and
`closeAccountSigned` are authorized by the program-derived authority via
invoke_signed with the given signer seeds. -/
inductive TokenInstr where
  | setAuthority (account new_authority current_authority : Nat)
  | transfer (source destination authority amount : Nat)
  | transferSigned (source destination authority amount : Nat) (signer_seeds : List Nat)
  | closeAccountSigned (account destination authority : Nat) (signer_seeds : List Nat)
deriving DecidableEq, Repr

/-- The bytes of the fixed seed literal "escrow" used by both derivation
sites (processor.rs lines 97-100 and 154). -/
def escrowSeed : List Nat := [101, 115, 99, 114, 111, 119]

/-- Modelled from the spec: the Escrow ledger-entry record of the repository's
state module (state.rs, not among the provided sources): is_initialized flag,
the initializer's identity, the custody (temporary token) account, the
initializer's receive account, and the expected amount. -/
structure Escrow where
  is_initialized : Bool
  initializer_pubkey : Nat
  temp_token_account_pubkey : Nat
  initializer_token_to_receive_account_pubkey : Nat
  expected_amount : Nat
deriving DecidableEq, Repr

/-- Little-endian encoding of a natural number into `k` bytes. -/
def natToLeBytes : Nat → Nat → List Nat
  | 0, _ => []
  | k + 1, n => n % 256 :: natToLeBytes k (n / 256)

/-- Little-endian interpretation of a byte list as a natural number. -/
def leBytesToNat : List Nat → Nat
  | [] => 0
  | b :: bs => b + 256 * leBytesToNat bs

/-- Modelled from the spec: the fixed-width serialization of a ledger entry
(state.rs pack_into_slice, not among the provided sources): 1-byte bool, three
32-byte identities, 8-byte little-endian u64, 105 bytes total. -/
def Escrow.pack (e : Escrow) : List Nat :=
  (if e.is_initialized then 1 else 0)
    :: (natToLeBytes 32 e.initializer_pubkey
        ++ (natToLeBytes 32 e.temp_token_account_pubkey
            ++ (natToLeBytes 32 e.initializer_token_to_receive_account_pubkey
                ++ natToLeBytes 8 e.expected_amount)))

/-- Modelled from the spec: deserialization of a ledger entry (state.rs
unpack_from_slice, not among the provided sources). Input of any length other
than the fixed 105 bytes is rejected, as is an is_initialized byte that is
neither 0 nor 1. -/
def Escrow.unpack_unchecked (src : List Nat) : Except ProgErr Escrow :=
  if src.length = 105 then
    let b := src.headD 0
    if b ≤ 1 then
      .ok ⟨b = 1,
           leBytesToNat ((src.drop 1).take 32),
           leBytesToNat ((src.drop 33).take 32),
           leBytesToNat ((src.drop 65).take 32),
           leBytesToNat ((src.drop 97).take 8)⟩
    else .error .invalidAccountData
  else .error .invalidAccountData

/-- Modelled from the spec: checked deserialization used at Settlement
(the Pack::unpack path through state.rs, not among the provided sources):
deserialize, then reject an entry whose is_initialized flag is false. -/
def Escrow.unpack (src : List Nat) : Except ProgErr Escrow :=
  match Escrow.unpack_unchecked src with
  | .ok v => if v.is_initialized then .ok v else .error .uninitializedAccount
  | .error e => .error e

/-- The external token interface's account state, reduced to the two fields
processor.rs reads: the balance and the initialization state. -/
structure TokenAccount where
  is_initialized : Bool
  amount : Nat
deriving DecidableEq, Repr

/-- The checked deserialization of a token account, parameterized by the
external token interface's raw decoder: decode, then reject an account whose
initialization flag is false. -/
def TokenAccount.unpack (unpack_raw : List Nat → Except ProgErr TokenAccount)
    (src : List Nat) : Except ProgErr TokenAccount :=
  match unpack_raw src with
  | .ok v => if v.is_initialized then .ok v else .error .uninitializedAccount
  | .error e => .error e

/-- u64 checked addition: the sum when it fits in 64 bits, none on overflow. -/
def checkedAddU64 (a b : Nat) : Option Nat :=
  if a + b < 2 ^ 64 then some (a + b) else none

deriving instance DecidableEq for Except

/-- The accounts handed to Processor::process_init_escrow, in the order they
are taken from the account iterator (processor.rs lines 47-103). The rent
sysvar account is represented by the rent oracle parameter of
process_init_escrow instead of raw data. -/
structure InitAccounts where
  initializer : AccountInfo
  temp_token_account : AccountInfo
  token_to_receive_account : AccountInfo
  escrow_account : AccountInfo
  token_program : AccountInfo
deriving DecidableEq, Repr

/-- Outcome of Trade Initiation: the token-interface instructions invoked and
either an error or the 105 bytes written into the ledger-entry account. -/
structure InitResult where
  emitted : List TokenInstr
  outcome : Except ProgErr (List Nat)
deriving DecidableEq, Repr

/-- Embedding of Processor::process_init_escrow (processor.rs lines 40-126).
Parameters: the rent oracle (is_exempt as a function of lamports and data
length), the token-interface program identity compared against the receive
account's owner, the program-derived-address derivation function, the
accounts, the instruction amount, and the program identity. Checks run in
source order: initializer signature, receive-account owner, rent exemption,
ledger-entry deserialization, double-initialization guard; then the entry is
populated and packed, and a set_authority instruction moving the custody
account to the derived authority is invoked. -/
def process_init_escrow
    (rent_is_exempt : Nat → Nat → Bool)
    (spl_token_id : Nat)
    (find_program_address : List Nat → Nat → Nat × Nat)
    (accounts : InitAccounts)
    (amount : Nat)
    (program_id : Nat) : InitResult :=
  if !accounts.initializer.is_signer then
    ⟨[], .error .missingRequiredSignature⟩
  else if accounts.token_to_receive_account.owner ≠ spl_token_id then
    ⟨[], .error .incorrectProgramId⟩
  else if !rent_is_exempt accounts.escrow_account.lamports accounts.escrow_account.data.length then
    ⟨[], .error .notRentExempt⟩
  else
    match Escrow.unpack_unchecked accounts.escrow_account.data with
    | .error e => ⟨[], .error e⟩
    | .ok escrow_info₀ =>
      if escrow_info₀.is_initialized then
        ⟨[], .error .accountAlreadyInitialized⟩
      else
        let escrow_info : Escrow :=
          ⟨true, accounts.initializer.key, accounts.temp_token_account.key,
           accounts.token_to_receive_account.key, amount⟩
        let pda := (find_program_address escrowSeed program_id).1
        ⟨[.setAuthority accounts.temp_token_account.key pda accounts.initializer.key],
         .ok (Escrow.pack escrow_info)⟩

/-- The accounts handed to Processor::process_exchange, in the order they are
taken from the account iterator (processor.rs lines 135-200). -/
structure ExchangeAccounts where
  taker : AccountInfo
  takers_sending_token_account : AccountInfo
  takers_token_to_receive_account : AccountInfo
  pdas_temp_token_account : AccountInfo
  initializers_main_account : AccountInfo
  initializers_token_to_receive_account : AccountInfo
  escrow_account : AccountInfo
  token_program : AccountInfo
  pda_account : AccountInfo
deriving DecidableEq, Repr

/-- Final state written by a completed Settlement: the initializer main
account's new lamport balance, and the ledger-entry account's lamports and
data (zeroed and emptied). -/
structure ExchangeFinal where
  initializers_main_lamports : Nat
  escrow_lamports : Nat
  escrow_data : List Nat
deriving DecidableEq, Repr

/-- Outcome of Trade Settlement: the token-interface instructions invoked, in
order, and either an error or the final written state. -/
structure ExchangeResult where
  emitted : List TokenInstr
  outcome : Except ProgErr ExchangeFinal
deriving DecidableEq, Repr

/-- Embedding of Processor::process_exchange (processor.rs lines 128-249).
Parameters: the external token interface's raw account decoder, the
program-derived-address derivation function, the accounts, the
taker-declared amount, and the program identity. Checks run in source order:
taker signature, custody token-account deserialization, declared amount
against custody balance, ledger-entry deserialization, then the three
identity bindings. On success three token-interface instructions are invoked
(transfer of expected_amount to the initializer authorized by the taker,
transfer of the full custody balance to the taker authorized by the derived
authority, closure of the custody account to the initializer), and the
ledger-entry rent lamports are consolidated into the initializer main
account with checked addition. -/
def process_exchange
    (unpack_token_raw : List Nat → Except ProgErr TokenAccount)
    (find_program_address : List Nat → Nat → Nat × Nat)
    (accounts : ExchangeAccounts)
    (amount_expected_by_taker : Nat)
    (program_id : Nat) : ExchangeResult :=
  if !accounts.taker.is_signer then
    ⟨[], .error .missingRequiredSignature⟩
  else
    match TokenAccount.unpack unpack_token_raw accounts.pdas_temp_token_account.data with
    | .error e => ⟨[], .error e⟩
    | .ok pdas_temp_token_account_info =>
      let pda := (find_program_address escrowSeed program_id).1
      let bump_seed := (find_program_address escrowSeed program_id).2
      if amount_expected_by_taker ≠ pdas_temp_token_account_info.amount then
        ⟨[], .error .expectedAmountMismatch⟩
      else
        match Escrow.unpack accounts.escrow_account.data with
        | .error e => ⟨[], .error e⟩
        | .ok escrow_info =>
          if escrow_info.temp_token_account_pubkey ≠ accounts.pdas_temp_token_account.key then
            ⟨[], .error .invalidAccountData⟩
          else if escrow_info.initializer_pubkey ≠ accounts.initializers_main_account.key then
            ⟨[], .error .invalidAccountData⟩
          else if escrow_info.initializer_token_to_receive_account_pubkey
              ≠ accounts.initializers_token_to_receive_account.key then
            ⟨[], .error .invalidAccountData⟩
          else
            let emitted : List TokenInstr :=
              [.transfer accounts.takers_sending_token_account.key
                 accounts.initializers_token_to_receive_account.key
                 accounts.taker.key escrow_info.expected_amount,
               .transferSigned accounts.pdas_temp_token_account.key
                 accounts.takers_token_to_receive_account.key
                 pda pdas_temp_token_account_info.amount (escrowSeed ++ [bump_seed]),
               .closeAccountSigned accounts.pdas_temp_token_account.key
                 accounts.initializers_main_account.key
                 pda (escrowSeed ++ [bump_seed])]
            match checkedAddU64 accounts.initializers_main_account.lamports
                accounts.escrow_account.lamports with
            | none => ⟨emitted, .error .amountOverflow⟩
            | some new_lamports => ⟨emitted, .ok ⟨new_lamports, 0, []⟩⟩

/-- A concrete raw token-account decoder for evaluating the embedding on
closed inputs: two bytes, an initialization flag and a balance. -/
def rawTokenDecoder (src : List Nat) : Except ProgErr TokenAccount :=
  match src with
  | [s, a] => .ok ⟨s = 1, a⟩
  | _ => .error .invalidAccountData

/-- A concrete derivation function for evaluating the embedding on closed
inputs. -/
def demoFpa (_seed : List Nat) (program_id : Nat) : Nat × Nat :=
  (1000 + program_id, 254)

/-- A concrete rent oracle for evaluating the embedding on closed inputs. -/
def demoRent (lamports data_len : Nat) : Bool :=
  data_len * 10 ≤ lamports

/-- A concrete account set for evaluating process_exchange on closed inputs:
the custody account holds 100 tokens and the ledger entry demands 250. -/
def demoExchangeAccounts : ExchangeAccounts :=
  ⟨⟨10, true, 0, 0, []⟩,
   ⟨11, false, 0, 0, []⟩,
   ⟨12, false, 0, 0, []⟩,
   ⟨13, false, 0, 0, [1, 100]⟩,
   ⟨14, false, 0, 20, []⟩,
   ⟨15, false, 0, 0, []⟩,
   ⟨16, false, 0, 5, Escrow.pack ⟨true, 14, 13, 15, 250⟩⟩,
   ⟨17, false, 0, 0, []⟩,
   ⟨18, false, 0, 0, []⟩⟩

/-- A concrete account set for evaluating process_init_escrow on closed
inputs: the ledger-entry account data is 105 zero bytes (uninitialized). -/
def demoInitAccounts : InitAccounts :=
  ⟨⟨21, true, 0, 0, []⟩,
   ⟨22, false, 0, 0, []⟩,
   ⟨23, false, 5, 0, []⟩,
   ⟨24, false, 0, 2000, List.replicate 105 0⟩,
   ⟨25, false, 0, 0, []⟩⟩

/-- The authority a token instruction is signed for via invoke_signed with
program-derived seeds, if any. -/
def TokenInstr.signed_authority : TokenInstr → Option Nat
  | .transferSigned _ _ a _ _ => some a
  | .closeAccountSigned _ _ a _ => some a
  | _ => none

/-- The signer seeds presented with an invoke_signed instruction, if any. -/
def TokenInstr.signing_seeds : TokenInstr → Option (List Nat)
  | .transferSigned _ _ _ _ s => some s
  | .closeAccountSigned _ _ _ s => some s
  | _ => none

/-- The little-endian encoder always produces exactly k bytes. -/
theorem natToLeBytes_length (k n : Nat) : (natToLeBytes k n).length = k := by
  induction k generalizing n with
  | zero => rfl
  | succ k ih => simp [natToLeBytes, ih]

/-- Little-endian decoding inverts encoding for values that fit in k bytes. -/
theorem leBytesToNat_natToLeBytes (k n : Nat) (h : n < 256 ^ k) :
    leBytesToNat (natToLeBytes k n) = n := by
  induction k generalizing n with
  | zero =>
    simp only [natToLeBytes, leBytesToNat]
    omega
  | succ k ih =>
    have hdiv : n / 256 < 256 ^ k := by
      rw [Nat.div_lt_iff_lt_mul (by norm_num)]
      calc n < 256 ^ (k + 1) := h
        _ = 256 ^ k * 256 := by ring
    simp only [natToLeBytes, leBytesToNat, ih (n / 256) hdiv]
    omega

/-- A packed ledger entry has the fixed length of 105 bytes. -/
theorem Escrow.pack_length (e : Escrow) : (Escrow.pack e).length = 105 := by
  simp [Escrow.pack, natToLeBytes_length]

/-- Deserialization inverts serialization for in-range field values. -/
theorem Escrow.unpack_unchecked_pack (e : Escrow)
    (h₁ : e.initializer_pubkey < 256 ^ 32)
    (h₂ : e.temp_token_account_pubkey < 256 ^ 32)
    (h₃ : e.initializer_token_to_receive_account_pubkey < 256 ^ 32)
    (h₄ : e.expected_amount < 256 ^ 8) :
    Escrow.unpack_unchecked (Escrow.pack e) = .ok e := by
  obtain ⟨init, p₁, p₂, p₃, am⟩ := e
  have hA : (natToLeBytes 32 p₁).length = 32 := natToLeBytes_length 32 p₁
  have hB : (natToLeBytes 32 p₂).length = 32 := natToLeBytes_length 32 p₂
  have hC : (natToLeBytes 32 p₃).length = 32 := natToLeBytes_length 32 p₃
  have hD : (natToLeBytes 8 am).length = 8 := natToLeBytes_length 8 am
  have hlen : (Escrow.pack ⟨init, p₁, p₂, p₃, am⟩).length = 105 :=
    Escrow.pack_length _
  have s₁ : ((Escrow.pack ⟨init, p₁, p₂, p₃, am⟩).drop 1).take 32 = natToLeBytes 32 p₁ :=
    List.take_left' hA
  have d33 : (Escrow.pack ⟨init, p₁, p₂, p₃, am⟩).drop 33
      = (natToLeBytes 32 p₂ ++ (natToLeBytes 32 p₃ ++ natToLeBytes 8 am)) := by
    show (natToLeBytes 32 p₁ ++ _).drop 32 = _
    exact List.drop_left' hA
  have s₂ : ((Escrow.pack ⟨init, p₁, p₂, p₃, am⟩).drop 33).take 32 = natToLeBytes 32 p₂ := by
    rw [d33]; exact List.take_left' hB
  have d64 : (natToLeBytes 32 p₁ ++ (natToLeBytes 32 p₂
      ++ (natToLeBytes 32 p₃ ++ natToLeBytes 8 am))).drop ((natToLeBytes 32 p₁).length + 32)
      = (natToLeBytes 32 p₂ ++ (natToLeBytes 32 p₃ ++ natToLeBytes 8 am)).drop 32 :=
    List.drop_append 32
  have d65 : (Escrow.pack ⟨init, p₁, p₂, p₃, am⟩).drop 65
      = natToLeBytes 32 p₃ ++ natToLeBytes 8 am := by
    show (natToLeBytes 32 p₁ ++ (natToLeBytes 32 p₂
      ++ (natToLeBytes 32 p₃ ++ natToLeBytes 8 am))).drop 64 = _
    rw [hA] at d64
    rw [show (64 : Nat) = 32 + 32 from rfl, d64]
    exact List.drop_left' hB
  have s₃ : ((Escrow.pack ⟨init, p₁, p₂, p₃, am⟩).drop 65).take 32 = natToLeBytes 32 p₃ := by
    rw [d65]; exact List.take_left' hC
  have d96 : (natToLeBytes 32 p₁ ++ (natToLeBytes 32 p₂
      ++ (natToLeBytes 32 p₃ ++ natToLeBytes 8 am))).drop ((natToLeBytes 32 p₁).length + 64)
      = (natToLeBytes 32 p₂ ++ (natToLeBytes 32 p₃ ++ natToLeBytes 8 am)).drop 64 :=
    List.drop_append 64
  have d64b : (natToLeBytes 32 p₂ ++ (natToLeBytes 32 p₃
      ++ natToLeBytes 8 am)).drop ((natToLeBytes 32 p₂).length + 32)
      = (natToLeBytes 32 p₃ ++ natToLeBytes 8 am).drop 32 :=
    List.drop_append 32
  have d97 : (Escrow.pack ⟨init, p₁, p₂, p₃, am⟩).drop 97 = natToLeBytes 8 am := by
    show (natToLeBytes 32 p₁ ++ (natToLeBytes 32 p₂
      ++ (natToLeBytes 32 p₃ ++ natToLeBytes 8 am))).drop 96 = _
    rw [hA] at d96
    rw [show (96 : Nat) = 32 + 64 from rfl, d96]
    rw [hB] at d64b
    rw [show (64 : Nat) = 32 + 32 from rfl, d64b]
    exact List.drop_left' hC
  have s₄ : ((Escrow.pack ⟨init, p₁, p₂, p₃, am⟩).drop 97).take 8 = natToLeBytes 8 am := by
    rw [d97]; exact List.take_of_length_le (le_of_eq hD)
  cases init with
  | true =>
    simp only [Escrow.unpack_unchecked, hlen, if_pos rfl, s₁, s₂, s₃, s₄]
    have hhead : (Escrow.pack ⟨true, p₁, p₂, p₃, am⟩).headD 0 = 1 := rfl
    simp only [hhead, leBytesToNat_natToLeBytes 32 p₁ h₁,
      leBytesToNat_natToLeBytes 32 p₂ h₂, leBytesToNat_natToLeBytes 32 p₃ h₃,
      leBytesToNat_natToLeBytes 8 am h₄]
    norm_num
  | false =>
    simp only [Escrow.unpack_unchecked, hlen, if_pos rfl, s₁, s₂, s₃, s₄]
    have hhead : (Escrow.pack ⟨false, p₁, p₂, p₃, am⟩).headD 0 = 0 := rfl
    simp only [hhead, leBytesToNat_natToLeBytes 32 p₁ h₁,
      leBytesToNat_natToLeBytes 32 p₂ h₂, leBytesToNat_natToLeBytes 32 p₃ h₃,
      leBytesToNat_natToLeBytes 8 am h₄]
    norm_num

/-- Any input shorter than the fixed 105-byte length is rejected. -/
theorem Escrow.unpack_unchecked_short (src : List Nat) (h : src.length < 105) :
    Escrow.unpack_unchecked src = .error .invalidAccountData := by
  unfold Escrow.unpack_unchecked
  rw [if_neg (by omega)]

/-- Claim C2: an Exchange whose counterparty-declared amount differs from the
custody account's current token balance fails with ExpectedAmountMismatch,
invokes no transfer, and writes no balance or ledger-entry field. -/
theorem exchange_amount_mismatch_rejected
    (unpack_token_raw : List Nat → Except ProgErr TokenAccount)
    (find_program_address : List Nat → Nat → Nat × Nat)
    (accounts : ExchangeAccounts) (amount_expected_by_taker program_id : Nat)
    (tinfo : TokenAccount)
    (hs : accounts.taker.is_signer = true)
    (ht : TokenAccount.unpack unpack_token_raw accounts.pdas_temp_token_account.data
      = .ok tinfo)
    (hne : amount_expected_by_taker ≠ tinfo.amount) :
    process_exchange unpack_token_raw find_program_address accounts
      amount_expected_by_taker program_id
      = ⟨[], .error .expectedAmountMismatch⟩ := by
  simp [process_exchange, hs, ht, hne]

/-- Witness for C2 at a closed input: custody balance 100, declared 99. -/
theorem exchange_amount_mismatch_rejected_witness :
    process_exchange rawTokenDecoder demoFpa demoExchangeAccounts 99 7
      = ⟨[], .error .expectedAmountMismatch⟩ :=
  exchange_amount_mismatch_rejected rawTokenDecoder demoFpa demoExchangeAccounts
    99 7 ⟨true, 100⟩ rfl rfl (by decide)

/-- Claim C1: for a stored entry demanding E and a custody account holding B,
an Exchange whose declared amount equals B and whose identity checks pass
invokes exactly these token-interface transfers, in order: E from the
counterparty's sending account to the initiator's receive account authorized
by the counterparty, then the custody account's entire balance B to the
counterparty's receive account authorized by the program-derived authority,
then closure of the custody account. -/
theorem exchange_settlement_transfer_amounts
    (unpack_token_raw : List Nat → Except ProgErr TokenAccount)
    (find_program_address : List Nat → Nat → Nat × Nat)
    (accounts : ExchangeAccounts) (amount_expected_by_taker program_id : Nat)
    (tinfo : TokenAccount) (einfo : Escrow)
    (hs : accounts.taker.is_signer = true)
    (ht : TokenAccount.unpack unpack_token_raw accounts.pdas_temp_token_account.data
      = .ok tinfo)
    (hamt : amount_expected_by_taker = tinfo.amount)
    (he : Escrow.unpack accounts.escrow_account.data = .ok einfo)
    (h₁ : einfo.temp_token_account_pubkey = accounts.pdas_temp_token_account.key)
    (h₂ : einfo.initializer_pubkey = accounts.initializers_main_account.key)
    (h₃ : einfo.initializer_token_to_receive_account_pubkey
      = accounts.initializers_token_to_receive_account.key) :
    (process_exchange unpack_token_raw find_program_address accounts
      amount_expected_by_taker program_id).emitted
      = [.transfer accounts.takers_sending_token_account.key
           accounts.initializers_token_to_receive_account.key
           accounts.taker.key einfo.expected_amount,
         .transferSigned accounts.pdas_temp_token_account.key
           accounts.takers_token_to_receive_account.key
           (find_program_address escrowSeed program_id).1 tinfo.amount
           (escrowSeed ++ [(find_program_address escrowSeed program_id).2]),
         .closeAccountSigned accounts.pdas_temp_token_account.key
           accounts.initializers_main_account.key
           (find_program_address escrowSeed program_id).1
           (escrowSeed ++ [(find_program_address escrowSeed program_id).2])] := by
  rcases hadd : checkedAddU64 accounts.initializers_main_account.lamports
      accounts.escrow_account.lamports with _ | v <;>
    simp [process_exchange, hs, ht, hamt, he, h₁, h₂, h₃, hadd]

/-- Witness for C1 at a closed input: entry demands 250, custody holds 100,
declared amount 100. -/
theorem exchange_settlement_transfer_amounts_witness :
    (process_exchange rawTokenDecoder demoFpa demoExchangeAccounts 100 7).emitted
      = [.transfer 11 15 10 250,
         .transferSigned 13 12 1007 100 (escrowSeed ++ [254]),
         .closeAccountSigned 13 14 1007 (escrowSeed ++ [254])] :=
  exchange_settlement_transfer_amounts rawTokenDecoder demoFpa demoExchangeAccounts
    100 7 ⟨true, 100⟩ ⟨true, 14, 13, 15, 250⟩ rfl rfl rfl (by decide) rfl rfl rfl

/-- Claim C3: an Exchange reaching the identity checks in which the supplied
custody account, initiator identity, or initiator receive account differs
from the corresponding stored ledger-entry field fails with
InvalidAccountData before any transfer is invoked, writing nothing. -/
theorem exchange_identity_mismatch_rejected
    (unpack_token_raw : List Nat → Except ProgErr TokenAccount)
    (find_program_address : List Nat → Nat → Nat × Nat)
    (accounts : ExchangeAccounts) (amount_expected_by_taker program_id : Nat)
    (tinfo : TokenAccount) (einfo : Escrow)
    (hs : accounts.taker.is_signer = true)
    (ht : TokenAccount.unpack unpack_token_raw accounts.pdas_temp_token_account.data
      = .ok tinfo)
    (hamt : amount_expected_by_taker = tinfo.amount)
    (he : Escrow.unpack accounts.escrow_account.data = .ok einfo)
    (hmis : einfo.temp_token_account_pubkey ≠ accounts.pdas_temp_token_account.key
      ∨ einfo.initializer_pubkey ≠ accounts.initializers_main_account.key
      ∨ einfo.initializer_token_to_receive_account_pubkey
          ≠ accounts.initializers_token_to_receive_account.key) :
    process_exchange unpack_token_raw find_program_address accounts
      amount_expected_by_taker program_id
      = ⟨[], .error .invalidAccountData⟩ := by
  rcases hmis with h | h | h
  · simp [process_exchange, hs, ht, hamt, he, h]
  · by_cases hc : einfo.temp_token_account_pubkey = accounts.pdas_temp_token_account.key <;>
      simp [process_exchange, hs, ht, hamt, he, h, hc]
  · by_cases hc : einfo.temp_token_account_pubkey = accounts.pdas_temp_token_account.key <;>
      by_cases hc₂ : einfo.initializer_pubkey = accounts.initializers_main_account.key <;>
      simp [process_exchange, hs, ht, hamt, he, h, hc, hc₂]

/-- Witness for C3 at a closed input: the supplied initiator main account has
key 19 while the entry records 14. -/
theorem exchange_identity_mismatch_rejected_witness :
    process_exchange rawTokenDecoder demoFpa
      ⟨⟨10, true, 0, 0, []⟩, ⟨11, false, 0, 0, []⟩, ⟨12, false, 0, 0, []⟩,
       ⟨13, false, 0, 0, [1, 100]⟩, ⟨19, false, 0, 20, []⟩, ⟨15, false, 0, 0, []⟩,
       ⟨16, false, 0, 5, Escrow.pack ⟨true, 14, 13, 15, 250⟩⟩,
       ⟨17, false, 0, 0, []⟩, ⟨18, false, 0, 0, []⟩⟩ 100 7
      = ⟨[], .error .invalidAccountData⟩ :=
  exchange_identity_mismatch_rejected rawTokenDecoder demoFpa _ 100 7
    ⟨true, 100⟩ ⟨true, 14, 13, 15, 250⟩ rfl rfl rfl (by decide)
    (Or.inr (Or.inl (by decide)))

/-- Claim C7: at the end of a Settlement that passed every check, the
ledger-entry account's entire lamport balance is added to the initiator's
main account with u64 checked addition, the entry's lamports are zeroed and
its data emptied; when the addition overflows, Settlement fails with
AmountOverflow and no final lamport balances are written in that step. -/
theorem exchange_rent_consolidation_checked_add
    (unpack_token_raw : List Nat → Except ProgErr TokenAccount)
    (find_program_address : List Nat → Nat → Nat × Nat)
    (accounts : ExchangeAccounts) (amount_expected_by_taker program_id : Nat)
    (tinfo : TokenAccount) (einfo : Escrow)
    (hs : accounts.taker.is_signer = true)
    (ht : TokenAccount.unpack unpack_token_raw accounts.pdas_temp_token_account.data
      = .ok tinfo)
    (hamt : amount_expected_by_taker = tinfo.amount)
    (he : Escrow.unpack accounts.escrow_account.data = .ok einfo)
    (h₁ : einfo.temp_token_account_pubkey = accounts.pdas_temp_token_account.key)
    (h₂ : einfo.initializer_pubkey = accounts.initializers_main_account.key)
    (h₃ : einfo.initializer_token_to_receive_account_pubkey
      = accounts.initializers_token_to_receive_account.key) :
    (∀ s, checkedAddU64 accounts.initializers_main_account.lamports
        accounts.escrow_account.lamports = some s →
      s = accounts.initializers_main_account.lamports + accounts.escrow_account.lamports ∧
      (process_exchange unpack_token_raw find_program_address accounts
        amount_expected_by_taker program_id).outcome = .ok ⟨s, 0, []⟩) ∧
    (checkedAddU64 accounts.initializers_main_account.lamports
        accounts.escrow_account.lamports = none →
      (process_exchange unpack_token_raw find_program_address accounts
        amount_expected_by_taker program_id).outcome = .error .amountOverflow) := by
  refine ⟨fun s hsome => ⟨?_, ?_⟩, fun hnone => ?_⟩
  · unfold checkedAddU64 at hsome
    split at hsome
    · exact (Option.some.inj hsome).symm
    · exact absurd hsome (by simp)
  · simp [process_exchange, hs, ht, hamt, he, h₁, h₂, h₃, hsome]
  · simp [process_exchange, hs, ht, hamt, he, h₁, h₂, h₃, hnone]

/-- Witness for C7 at a closed input: balances 20 and 5 consolidate to 25,
the entry zeroed and emptied. -/
theorem exchange_rent_consolidation_checked_add_witness :
    25 = 20 + 5 ∧
    (process_exchange rawTokenDecoder demoFpa demoExchangeAccounts 100 7).outcome
      = .ok ⟨25, 0, []⟩ :=
  (exchange_rent_consolidation_checked_add rawTokenDecoder demoFpa demoExchangeAccounts
    100 7 ⟨true, 100⟩ ⟨true, 14, 13, 15, 250⟩ rfl rfl rfl (by decide) rfl rfl rfl).1
    25 (by decide)

/-- Claim C10: an Exchange whose custody token account or ledger-entry
account decodes as uninitialized fails at the corresponding unpack step with
UninitializedAccount, before any transfer is invoked and without writing any
balance or entry field. -/
theorem exchange_uninitialized_unpack_rejected
    (unpack_token_raw : List Nat → Except ProgErr TokenAccount)
    (find_program_address : List Nat → Nat → Nat × Nat)
    (accounts : ExchangeAccounts) (amount_expected_by_taker program_id : Nat)
    (hs : accounts.taker.is_signer = true) :
    (∀ t, unpack_token_raw accounts.pdas_temp_token_account.data = .ok t →
      t.is_initialized = false →
      process_exchange unpack_token_raw find_program_address accounts
        amount_expected_by_taker program_id
        = ⟨[], .error .uninitializedAccount⟩) ∧
    (∀ t e₀, TokenAccount.unpack unpack_token_raw accounts.pdas_temp_token_account.data
        = .ok t →
      amount_expected_by_taker = t.amount →
      Escrow.unpack_unchecked accounts.escrow_account.data = .ok e₀ →
      e₀.is_initialized = false →
      process_exchange unpack_token_raw find_program_address accounts
        amount_expected_by_taker program_id
        = ⟨[], .error .uninitializedAccount⟩) := by
  constructor
  · intro t hraw huninit
    have htok : TokenAccount.unpack unpack_token_raw accounts.pdas_temp_token_account.data
        = .error .uninitializedAccount := by
      simp [TokenAccount.unpack, hraw, huninit]
    simp [process_exchange, hs, htok]
  · intro t e₀ htok hamt hraw huninit
    have hesc : Escrow.unpack accounts.escrow_account.data
        = .error .uninitializedAccount := by
      simp [Escrow.unpack, hraw, huninit]
    simp [process_exchange, hs, htok, hamt, hesc]

/-- Witness for C10 at a closed input: the custody account's data decodes
with a cleared initialization flag. -/
theorem exchange_uninitialized_unpack_rejected_witness :
    process_exchange rawTokenDecoder demoFpa
      ⟨⟨10, true, 0, 0, []⟩, ⟨11, false, 0, 0, []⟩, ⟨12, false, 0, 0, []⟩,
       ⟨13, false, 0, 0, [0, 100]⟩, ⟨14, false, 0, 20, []⟩, ⟨15, false, 0, 0, []⟩,
       ⟨16, false, 0, 5, Escrow.pack ⟨true, 14, 13, 15, 250⟩⟩,
       ⟨17, false, 0, 0, []⟩, ⟨18, false, 0, 0, []⟩⟩ 100 7
      = ⟨[], .error .uninitializedAccount⟩ :=
  (exchange_uninitialized_unpack_rejected rawTokenDecoder demoFpa _ 100 7 rfl).1
    ⟨false, 100⟩ (by decide) rfl

/-- Claim C4: a successful Trade Initiation writes a ledger entry whose
is_initialized flag is true and whose stored initiator identity, custody
account, receive account and expected amount equal exactly the supplied
values, and invokes exactly one authority change handing the custody account
to the program-derived authority computed from the fixed seed and the
program identity. -/
theorem init_escrow_populates_entry_and_reassigns_authority
    (rent_is_exempt : Nat → Nat → Bool) (spl_token_id : Nat)
    (find_program_address : List Nat → Nat → Nat × Nat)
    (accounts : InitAccounts) (amount program_id : Nat) (e₀ : Escrow)
    (hs : accounts.initializer.is_signer = true)
    (how : accounts.token_to_receive_account.owner = spl_token_id)
    (hrent : rent_is_exempt accounts.escrow_account.lamports
      accounts.escrow_account.data.length = true)
    (hu : Escrow.unpack_unchecked accounts.escrow_account.data = .ok e₀)
    (hni : e₀.is_initialized = false)
    (hk₁ : accounts.initializer.key < 256 ^ 32)
    (hk₂ : accounts.temp_token_account.key < 256 ^ 32)
    (hk₃ : accounts.token_to_receive_account.key < 256 ^ 32)
    (ham : amount < 256 ^ 8) :
    process_init_escrow rent_is_exempt spl_token_id find_program_address accounts
      amount program_id
      = ⟨[.setAuthority accounts.temp_token_account.key
            (find_program_address escrowSeed program_id).1 accounts.initializer.key],
         .ok (Escrow.pack ⟨true, accounts.initializer.key, accounts.temp_token_account.key,
            accounts.token_to_receive_account.key, amount⟩)⟩ ∧
    Escrow.unpack_unchecked (Escrow.pack ⟨true, accounts.initializer.key,
        accounts.temp_token_account.key, accounts.token_to_receive_account.key, amount⟩)
      = .ok ⟨true, accounts.initializer.key, accounts.temp_token_account.key,
          accounts.token_to_receive_account.key, amount⟩ := by
  constructor
  · simp [process_init_escrow, hs, how, hrent, hu, hni]
  · exact Escrow.unpack_unchecked_pack _ hk₁ hk₂ hk₃ ham

/-- Witness for C4 at a closed input: initiation over a zeroed ledger-entry
account demanding 777 tokens. -/
theorem init_escrow_populates_entry_and_reassigns_authority_witness :
    process_init_escrow demoRent 5 demoFpa demoInitAccounts 777 9
      = ⟨[.setAuthority 22 1009 21], .ok (Escrow.pack ⟨true, 21, 22, 23, 777⟩)⟩ ∧
    Escrow.unpack_unchecked (Escrow.pack ⟨true, 21, 22, 23, 777⟩)
      = .ok ⟨true, 21, 22, 23, 777⟩ :=
  init_escrow_populates_entry_and_reassigns_authority demoRent 5 demoFpa
    demoInitAccounts 777 9 ⟨false, 0, 0, 0, 0⟩ rfl rfl rfl (by decide) rfl
    (by decide) (by decide) (by decide) (by decide)

/-- Claim C5: a Trade Initiation over a ledger-entry account that already
decodes as initialized fails with AccountAlreadyInitialized, invoking
nothing and leaving the stored entry unwritten. -/
theorem init_escrow_double_initialization_rejected
    (rent_is_exempt : Nat → Nat → Bool) (spl_token_id : Nat)
    (find_program_address : List Nat → Nat → Nat × Nat)
    (accounts : InitAccounts) (amount program_id : Nat) (e₀ : Escrow)
    (hs : accounts.initializer.is_signer = true)
    (how : accounts.token_to_receive_account.owner = spl_token_id)
    (hrent : rent_is_exempt accounts.escrow_account.lamports
      accounts.escrow_account.data.length = true)
    (hu : Escrow.unpack_unchecked accounts.escrow_account.data = .ok e₀)
    (hinit : e₀.is_initialized = true) :
    process_init_escrow rent_is_exempt spl_token_id find_program_address accounts
      amount program_id
      = ⟨[], .error .accountAlreadyInitialized⟩ := by
  simp [process_init_escrow, hs, how, hrent, hu, hinit]

/-- Witness for C5 at a closed input: the ledger-entry account already holds
a packed initialized entry. -/
theorem init_escrow_double_initialization_rejected_witness :
    process_init_escrow demoRent 5 demoFpa
      ⟨⟨21, true, 0, 0, []⟩, ⟨22, false, 0, 0, []⟩, ⟨23, false, 5, 0, []⟩,
       ⟨24, false, 0, 2000, Escrow.pack ⟨true, 21, 22, 23, 777⟩⟩, ⟨25, false, 0, 0, []⟩⟩
      777 9
      = ⟨[], .error .accountAlreadyInitialized⟩ :=
  init_escrow_double_initialization_rejected demoRent 5 demoFpa _ 777 9
    ⟨true, 21, 22, 23, 777⟩ rfl rfl (by decide) (by decide) rfl

/-- Claim C6: Trade Initiation enforces its four preconditions in order,
failing immediately with the corresponding error and writing nothing: a
missing initiator signature yields MissingRequiredSignature; with a
signature, a receive account not owned by the token interface yields
IncorrectProgramId; with both, a ledger-entry account below the
rent-exemption threshold yields NotRentExempt; with all three, an already
initialized entry yields AccountAlreadyInitialized. -/
theorem init_escrow_precondition_order
    (rent_is_exempt : Nat → Nat → Bool) (spl_token_id : Nat)
    (find_program_address : List Nat → Nat → Nat × Nat)
    (accounts : InitAccounts) (amount program_id : Nat) :
    (accounts.initializer.is_signer = false →
      process_init_escrow rent_is_exempt spl_token_id find_program_address accounts
        amount program_id = ⟨[], .error .missingRequiredSignature⟩) ∧
    (accounts.initializer.is_signer = true →
      accounts.token_to_receive_account.owner ≠ spl_token_id →
      process_init_escrow rent_is_exempt spl_token_id find_program_address accounts
        amount program_id = ⟨[], .error .incorrectProgramId⟩) ∧
    (accounts.initializer.is_signer = true →
      accounts.token_to_receive_account.owner = spl_token_id →
      rent_is_exempt accounts.escrow_account.lamports
        accounts.escrow_account.data.length = false →
      process_init_escrow rent_is_exempt spl_token_id find_program_address accounts
        amount program_id = ⟨[], .error .notRentExempt⟩) ∧
    (∀ e₀, accounts.initializer.is_signer = true →
      accounts.token_to_receive_account.owner = spl_token_id →
      rent_is_exempt accounts.escrow_account.lamports
        accounts.escrow_account.data.length = true →
      Escrow.unpack_unchecked accounts.escrow_account.data = .ok e₀ →
      e₀.is_initialized = true →
      process_init_escrow rent_is_exempt spl_token_id find_program_address accounts
        amount program_id = ⟨[], .error .accountAlreadyInitialized⟩) := by
  refine ⟨fun h₁ => ?_, fun h₁ h₂ => ?_, fun h₁ h₂ h₃ => ?_, fun e₀ h₁ h₂ h₃ h₄ h₅ => ?_⟩
  · simp [process_init_escrow, h₁]
  · simp [process_init_escrow, h₁, h₂]
  · simp [process_init_escrow, h₁, h₂, h₃]
  · simp [process_init_escrow, h₁, h₂, h₃, h₄, h₅]

/-- Witness for C6 at a closed input: the initiator did not sign. -/
theorem init_escrow_precondition_order_witness :
    process_init_escrow demoRent 5 demoFpa
      ⟨⟨21, false, 0, 0, []⟩, ⟨22, false, 0, 0, []⟩, ⟨23, false, 5, 0, []⟩,
       ⟨24, false, 0, 2000, List.replicate 105 0⟩, ⟨25, false, 0, 0, []⟩⟩ 777 9
      = ⟨[], .error .missingRequiredSignature⟩ :=
  (init_escrow_precondition_order demoRent 5 demoFpa _ 777 9).1 rfl

/-- Claim C8: packing any valid ledger entry (identities of 32 bytes, amount
a u64, including 0 and the maximal u64) and unpacking the bytes yields the
identical entry, and unpacking any input shorter than the fixed 105-byte
length is rejected. -/
theorem escrow_pack_unpack_roundtrip_and_truncation :
    (∀ e : Escrow, e.initializer_pubkey < 256 ^ 32 →
      e.temp_token_account_pubkey < 256 ^ 32 →
      e.initializer_token_to_receive_account_pubkey < 256 ^ 32 →
      e.expected_amount < 256 ^ 8 →
      Escrow.unpack_unchecked (Escrow.pack e) = .ok e) ∧
    (∀ src : List Nat, src.length < 105 →
      Escrow.unpack_unchecked src = .error .invalidAccountData) :=
  ⟨fun e h₁ h₂ h₃ h₄ => Escrow.unpack_unchecked_pack e h₁ h₂ h₃ h₄,
   fun src h => Escrow.unpack_unchecked_short src h⟩

/-- Witness for C8 at closed inputs: round trips at the boundary amounts 0
and u64 max, and rejection of a 3-byte input. -/
theorem escrow_pack_unpack_roundtrip_and_truncation_witness :
    Escrow.unpack_unchecked (Escrow.pack ⟨true, 1, 2, 3, 0⟩) = .ok ⟨true, 1, 2, 3, 0⟩ ∧
    Escrow.unpack_unchecked (Escrow.pack ⟨false, 4, 5, 6, 2 ^ 64 - 1⟩)
      = .ok ⟨false, 4, 5, 6, 2 ^ 64 - 1⟩ ∧
    Escrow.unpack_unchecked [1, 2, 3] = .error .invalidAccountData :=
  ⟨escrow_pack_unpack_roundtrip_and_truncation.1 ⟨true, 1, 2, 3, 0⟩
      (by norm_num) (by norm_num) (by norm_num) (by norm_num),
   escrow_pack_unpack_roundtrip_and_truncation.1 ⟨false, 4, 5, 6, 2 ^ 64 - 1⟩
      (by norm_num) (by norm_num) (by norm_num) (by norm_num),
   escrow_pack_unpack_roundtrip_and_truncation.2 [1, 2, 3] (by norm_num)⟩

/-- Claim C9: authority derivation is deterministic and shared: whatever
derivation function and program identity are in force, every authority
change emitted by Trade Initiation names exactly the authority derived from
the fixed escrow seed and the program identity, and every signed instruction
emitted by Trade Settlement is authorized as that same identity with the
same seed-and-bump signer seeds, for all trade parameters. -/
theorem authority_derivation_shared_across_operations
    (rent_is_exempt : Nat → Nat → Bool) (spl_token_id : Nat)
    (unpack_token_raw : List Nat → Except ProgErr TokenAccount)
    (find_program_address : List Nat → Nat → Nat × Nat)
    (accounts_i : InitAccounts) (amount_i : Nat)
    (accounts_e : ExchangeAccounts) (amount_e : Nat) (program_id : Nat) :
    (∀ i ∈ (process_init_escrow rent_is_exempt spl_token_id find_program_address
        accounts_i amount_i program_id).emitted,
      i = .setAuthority accounts_i.temp_token_account.key
        (find_program_address escrowSeed program_id).1 accounts_i.initializer.key) ∧
    (∀ i ∈ (process_exchange unpack_token_raw find_program_address accounts_e
        amount_e program_id).emitted,
      i.signed_authority = none ∨
      (i.signed_authority = some (find_program_address escrowSeed program_id).1 ∧
       i.signing_seeds = some (escrowSeed
         ++ [(find_program_address escrowSeed program_id).2]))) := by
  constructor
  · intro i hi
    unfold process_init_escrow at hi
    repeat' split at hi
    all_goals simp_all
  · intro i hi
    unfold process_exchange at hi
    repeat' split at hi
    all_goals simp only [List.mem_cons, List.not_mem_nil, or_false] at hi
    all_goals rcases hi with rfl | rfl | rfl <;>
      simp [TokenInstr.signed_authority, TokenInstr.signing_seeds]

/-- Witness for C9 at closed inputs: the initiation's authority change and
the settlement's signed transfers all use the derivation at program
identity 9, independent of the differing trade parameters. -/
theorem authority_derivation_shared_across_operations_witness :
    TokenInstr.setAuthority 22 1009 21
      = TokenInstr.setAuthority demoInitAccounts.temp_token_account.key
          (demoFpa escrowSeed 9).1 demoInitAccounts.initializer.key :=
  (authority_derivation_shared_across_operations demoRent 5 rawTokenDecoder demoFpa
    demoInitAccounts 777 demoExchangeAccounts 100 9).1
    (TokenInstr.setAuthority 22 1009 21) (by decide)
